import Mathlib

/-!
Verification development for the survey-question generation pipeline and the
multi-source event-data extraction/merge engine of the `punter` backend.

The definitions below are a shallow embedding of the Python sources under
`backend/app/services` and `backend/app/api`:

* `universal_questions.py` — the fixed demographic question catalog;
* `question_bank.py` — the expert question bank and its required subset;
* `pre_event_config.py` — forbidden patterns, survey constraints, bucket quotas;
* `llm_service.py` — context analysis, the 3-call generation pipeline,
  response normalization (`validate_questions`) and the static fallback set;
* `scrapers/base.py` and `event_scraper.py` — `ExtractedEventData` and the
  multi-source merge (`merge_results`), including a faithful model of
  `difflib.SequenceMatcher(...).ratio()` for the 0.8 fuzzy-dedup threshold;
* `api/events.py` — the `extract-data` endpoint's empty-URL-list guard.

LLM calls and HTTP fetches are modelled as explicit oracle parameters (the
parsed response structures the Python code extracts from them); everything
downstream of those oracles is embedded deterministically from the source.
-/

namespace Punter

/-! ## Python string primitives -/

/-- Whitespace characters removed by Python `str.strip()` (ASCII subset). -/
def isPySpace (c : Char) : Bool :=
  c = ' ' || c = '\t' || c = '\n' || c = '\r' || c = '\x0b' || c = '\x0c'

/-- Python `str.strip()`: drop leading and trailing whitespace. -/
def pyStrip (s : String) : String :=
  String.mk (List.rdropWhile isPySpace (List.dropWhile isPySpace s.toList))

/-- Python `str.lower()` (ASCII). -/
def pyLower (s : String) : String :=
  String.mk (s.toList.map Char.toLower)

/-- Python substring test `needle in hay`. -/
def pyContains (needle hay : String) : Bool :=
  (List.range (hay.toList.length + 1)).any
    (fun i => (hay.toList.drop i).take needle.toList.length == needle.toList)

/-- Python truthiness of an `Optional[str]`: `None` and `""` are falsy. -/
def optStrTruthy : Option String → Bool
  | none => false
  | some s => s ≠ ""

theorem stripChars_idempotent (l : List Char) :
    List.rdropWhile isPySpace (List.dropWhile isPySpace
      (List.rdropWhile isPySpace (List.dropWhile isPySpace l))) =
    List.rdropWhile isPySpace (List.dropWhile isPySpace l) := by
  have hself : List.dropWhile isPySpace (List.dropWhile isPySpace l)
      = List.dropWhile isPySpace l := List.dropWhile_idempotent _ _
  obtain ⟨r, hr⟩ := List.rdropWhile_prefix isPySpace (List.dropWhile isPySpace l)
  have hdrop : List.dropWhile isPySpace
      (List.rdropWhile isPySpace (List.dropWhile isPySpace l)) =
      List.rdropWhile isPySpace (List.dropWhile isPySpace l) := by
    cases ht : List.rdropWhile isPySpace (List.dropWhile isPySpace l) with
    | nil => simp
    | cons c cs =>
      rw [ht] at hr
      have key : ∀ h0 : 0 < (List.dropWhile isPySpace l).length,
          (List.dropWhile isPySpace l).get ⟨0, h0⟩ = c := by
        rw [← hr]
        intro h0
        rfl
      have h0 : 0 < (List.dropWhile isPySpace l).length := by
        rw [← hr]
        simp
      have h2 := List.dropWhile_get_zero_not isPySpace l h0
      rw [key h0] at h2
      simp [List.dropWhile_cons, h2]
  rw [hdrop, List.rdropWhile_idempotent]

theorem pyStrip_idempotent (s : String) : pyStrip (pyStrip s) = pyStrip s :=
  congrArg String.mk (stripChars_idempotent s.toList)

/-! ## `difflib.SequenceMatcher` (no junk, short strings)

`ratio()` is `2*M/T` where `T` is the total length and `M` the total size of
the matching blocks: recursively take the longest common contiguous block
(earliest in `a`, then earliest in `b`, on ties) and recurse on both sides.
With no junk and strings shorter than 200 characters (autojunk off) this is
exactly CPython's result. -/

/-- Length of the common run at the heads of two lists. -/
def matchLen : List Char → List Char → Nat
  | x :: xs, y :: ys => if x = y then matchLen xs ys + 1 else 0
  | _, _ => 0

/-- Longest matching block `(i, j, k)`: maximize `k`, tie-break smallest `i`
then smallest `j` — the order CPython's `find_longest_match` discovers them. -/
def bestMatch (a b : List Char) : Nat × Nat × Nat :=
  (List.range a.length).foldl
    (fun best i =>
      (List.range b.length).foldl
        (fun best j =>
          let k := matchLen (a.drop i) (b.drop j)
          if k > best.2.2 then (i, j, k) else best)
        best)
    (0, 0, 0)

/-- Total size of all matching blocks, fuelled recursion (each level strictly
shrinks `a`, so fuel `a.length + 1` always suffices). -/
def matchTotalF : Nat → List Char → List Char → Nat
  | 0, _, _ => 0
  | fuel + 1, a, b =>
    let m := bestMatch a b
    if m.2.2 = 0 then 0
    else
      m.2.2 + matchTotalF fuel (a.take m.1) (b.take m.2.1) +
        matchTotalF fuel (a.drop (m.1 + m.2.2)) (b.drop (m.2.1 + m.2.2))

/-- Total matching size `M` for two strings. -/
def matchTotal (a b : String) : Nat :=
  matchTotalF (a.toList.length + 1) a.toList b.toList

/-- `SequenceMatcher(None, a, b).ratio() >= 0.8`, decided exactly:
`2M/T ≥ 4/5  ↔  5M ≥ 2T` (and `ratio` of two empty strings is `1.0`). -/
def similarityGE80 (a b : String) : Bool :=
  if a.toList.length + b.toList.length = 0 then true
  else 5 * matchTotal a b ≥ 2 * (a.toList.length + b.toList.length)

set_option maxRecDepth 4000 in
example : similarityGE80 (pyLower "Early Bird") (pyLower "Earlybird") = true := by decide

set_option maxRecDepth 4000 in
example : similarityGE80 (pyLower "VIP") (pyLower "General Admission") = false := by decide

/-! ## `universal_questions.py` -/

/-- One entry of the `UNIVERSAL_QUESTIONS` catalog. -/
structure UniversalQuestionDef where
  question_text : String
  question_type : String
  options : Option (List String) := none
  required : Bool
  order : Int
  deriving DecidableEq, Repr

/-- The `UNIVERSAL_QUESTIONS` dict, in insertion order. Entry fields:
`⟨question_text, question_type, options, required, order⟩`. -/
def UNIVERSAL_QUESTIONS : List (String × UniversalQuestionDef) :=
  [ ("first_name", ⟨"First Name", "text", none, true, -10⟩),
    ("last_name", ⟨"Last Name", "text", none, true, -9⟩),
    ("email", ⟨"Email Address", "email", none, true, -8⟩),
    ("phone", ⟨"Phone Number", "phone", none, false, -7⟩),
    ("home_base", ⟨"Where is your home base / where did you grow up?", "text", none, false, -6⟩),
    ("current_location", ⟨"Where do you currently live?", "text", none, false, -5⟩),
    ("age_bracket", ⟨"Age bracket", "Single-select",
      some ["18-24", "25-34", "35-44", "45-54", "55-64", "65+"], false, -4⟩),
    ("occupation", ⟨"Occupation / Field of Work", "text", none, false, -3⟩) ]

/-- `get_universal_question_texts()`. -/
def get_universal_question_texts : List String :=
  UNIVERSAL_QUESTIONS.map (fun p => p.2.question_text)

/-- A universal question as returned by `get_universal_questions` (the base
dict copied, plus `panorama_id` and `is_universal`). -/
structure UniversalQuestion where
  question_text : String
  question_type : String
  options : Option (List String) := none
  required : Bool
  order : Int
  panorama_id : String
  is_universal : Bool
  deriving DecidableEq, Repr

/-- Attach `panorama_id` and `is_universal := True` to a catalog entry. -/
def toUniversal (panorama_id : String) (base : UniversalQuestionDef) : UniversalQuestion :=
  { question_text := base.question_text, question_type := base.question_type,
    options := base.options, required := base.required, order := base.order,
    panorama_id := panorama_id, is_universal := true }

/-- `get_universal_questions(panorama_id, config)`: always the three required
identity questions, then the optional ones enabled by `config`. -/
def get_universal_questions (panorama_id : String) (config : List (String × Bool)) :
    List UniversalQuestion :=
  (["first_name", "last_name", "email"].filterMap
    (fun key => (UNIVERSAL_QUESTIONS.lookup key).map (toUniversal panorama_id))) ++
  (["phone", "home_base", "current_location", "age_bracket", "occupation"].filterMap
    (fun key =>
      if (config.lookup key).getD false then
        (UNIVERSAL_QUESTIONS.lookup key).map (toUniversal panorama_id)
      else none))

/-! ## `question_bank.py` -/

/-- One entry of `QUESTION_BANK`. -/
structure BankQuestion where
  id : String
  question_text_template : String
  question_type : String
  options : Option (List String)
  category : String
  is_required : Bool
  deriving DecidableEq, Repr

/-- The `QUESTION_BANK` catalog. Entry fields:
`⟨id, question_text_template, question_type, options, category, is_required⟩`. -/
def QUESTION_BANK : List BankQuestion :=
  [ ⟨"req_accessibility",
      "Do you have any accessibility requirements we should know about for {event_name}?",
      "textarea", none, "accessibility", true⟩,
    ⟨"req_catch_all",
      "Is there anything else you'd like us to know about your expectations for {event_name}?",
      "textarea", none, "expectations", true⟩,
    ⟨"exp_001", "What are you most hoping to experience at {event_name}?",
      "Multi-select", some ["Live music performances", "Discovering new artists",
        "Social atmosphere", "Food and drinks", "Meeting like-minded people",
        "Unique venue experience"], "expectations", false⟩,
    ⟨"exp_002",
      "How important is it that {event_name} delivers a unique experience compared to other events?",
      "Likert", some ["Not Important", "Slightly Important", "Moderately Important",
        "Very Important", "Extremely Important"], "expectations", false⟩,
    ⟨"pref_001", "What type of music or performances would you most like to see at {event_name}?",
      "Multi-select", some ["Electronic/DJ", "Live bands", "Acoustic/Singer-songwriter",
        "Hip-hop/R&B", "Rock/Alternative", "Pop", "Jazz/Blues", "World music"],
      "preferences", false⟩,
    ⟨"pref_002", "What is your preferred event format?",
      "Single-select", some ["Single day event", "Multi-day festival", "Evening only",
        "All-day event", "No preference"], "preferences", false⟩,
    ⟨"reg_001", "What motivated you to register interest in {event_name}?",
      "Multi-select", some ["The lineup/artists", "The venue", "Recommendation from friends",
        "Previous positive experience", "Social media buzz", "Value for money",
        "Unique concept"], "registration", false⟩,
    ⟨"reg_002", "How likely are you to attend {event_name} if tickets become available?",
      "Likert", some ["Very Unlikely", "Unlikely", "Neutral", "Likely", "Very Likely"],
      "registration", false⟩,
    ⟨"acc_001", "Which accessibility features are important to you for {event_name}?",
      "Multi-select", some ["Wheelchair access", "Accessible viewing areas",
        "Accessible toilets", "Quiet/low sensory spaces", "Sign language interpretation",
        "Hearing loops", "None needed"], "accessibility", false⟩,
    ⟨"acc_002", "Do you have any dietary requirements we should consider for food offerings?",
      "Multi-select", some ["Vegetarian", "Vegan", "Gluten-free", "Halal", "Kosher",
        "Nut allergies", "Other allergies", "No specific requirements"],
      "accessibility", false⟩,
    ⟨"line_001", "How important is it that the lineup features well-known headliners?",
      "Likert", some ["Not Important", "Slightly Important", "Moderately Important",
        "Very Important", "Extremely Important"], "lineup_interest", false⟩,
    ⟨"line_002", "How interested are you in discovering new/emerging artists at {event_name}?",
      "Likert", some ["Not Interested", "Slightly Interested", "Moderately Interested",
        "Very Interested", "Extremely Interested"], "lineup_interest", false⟩,
    ⟨"price_001", "What price range would you consider reasonable for {event_name}?",
      "Single-select", some ["Under $50", "$50-$100", "$100-$150", "$150-$200",
        "$200-$300", "Over $300"], "pricing", false⟩,
    ⟨"price_002", "Which ticket type would you be most interested in?",
      "Single-select", some ["General admission", "Early bird discount", "VIP/Premium",
        "Group discount", "Payment plan option"], "pricing", false⟩,
    ⟨"log_001", "Which days of the week work best for you to attend {event_name}?",
      "Multi-select", some ["Monday", "Tuesday", "Wednesday", "Thursday", "Friday",
        "Saturday", "Sunday"], "logistics", false⟩,
    ⟨"log_002", "How will you most likely travel to {event_name}?",
      "Single-select", some ["Drive and park", "Public transport", "Taxi/Rideshare",
        "Walk/Cycle", "Shuttle service if available", "Undecided"], "logistics", false⟩,
    ⟨"mkt_001", "How did you first hear about {event_name}?",
      "Single-select", some ["Instagram", "Facebook", "TikTok", "Friend/Word of mouth",
        "Email newsletter", "Website search", "Poster/Flyer", "Radio", "Other"],
      "marketing", false⟩,
    ⟨"mkt_002",
      "What information would be most helpful to know before deciding to attend {event_name}?",
      "Multi-select", some ["Full lineup announcement", "Ticket prices", "Venue details",
        "Schedule/Timetable", "Food and drink options", "Parking/Transport info",
        "What to bring/not bring"], "marketing", false⟩ ]

/-- `get_required_questions()`: the bank entries with `is_required=True`. -/
def get_required_questions : List BankQuestion :=
  QUESTION_BANK.filter (fun q => q.is_required)

/-! ## `pre_event_config.py` -/

/-- `PRE_EVENT_CONFIG["forbidden_patterns"]`. -/
def forbidden_patterns : List String :=
  [ "how likely are you to recommend",
    "would you recommend",
    "net promoter",
    "how satisfied were you",
    "how satisfied are you with",
    "rate your satisfaction",
    "overall satisfaction",
    "what did you like most",
    "what did you like least",
    "what did you enjoy",
    "what could be improved",
    "what would you change",
    "what was the highlight",
    "what was your favorite",
    "what disappointed you",
    "how was your experience",
    "how would you rate the event",
    "did the event meet your expectations",
    "was the event worth" ]

/-- `is_forbidden_question(question_text)`: substring match of any lowered
forbidden pattern against the lowered question text. -/
def is_forbidden_question (question_text : String) : Bool :=
  forbidden_patterns.any (fun pattern => pyContains (pyLower pattern) (pyLower question_text))

/-- `PRE_EVENT_CONFIG["bucket_question_counts"]` via `get_bucket_question_counts()`. -/
def get_bucket_question_counts : List (String × Nat) :=
  [("must_have", 4), ("interested", 2), ("not_important", 0)]

/-- Survey constraints from `PRE_EVENT_CONFIG` via `get_survey_constraints()`. -/
structure SurveyConstraints where
  min_questions : Nat
  max_questions : Nat
  deriving DecidableEq, Repr

/-- `get_survey_constraints()` (the type-mix guidance is unused by the core). -/
def get_survey_constraints : SurveyConstraints :=
  ⟨10, 25⟩

/-! ## `llm_service.py` — data model

Raw questions are the dicts found in LLM output: `question_text` defaults to
`""`, `question_type` to `"text"`, `options` to `None` (a non-list `options`
value behaves exactly like `None` in `_validate_questions`, so `Option (List
String)` is a faithful quotient), `required` to `False` (the code immediately
coerces it with `bool(...)`). -/

structure RawQuestion where
  question_text : String := ""
  question_type : String := "text"
  options : Option (List String) := none
  required : Bool := false
  deriving DecidableEq, Repr

/-- A normalized question as produced by `_validate_questions` /
`_get_fallback_questions` (`order` is the non-negative index assigned there;
negative orders only ever appear on universal questions, a separate type). -/
structure Question where
  question_text : String
  question_type : String
  options : Option (List String)
  required : Bool
  order : Nat
  deriving DecidableEq, Repr

/-- Re-read a produced question as the raw dict it is in Python (the `order`
key is never read back by `_validate_questions`). -/
def Question.toRaw (q : Question) : RawQuestion :=
  ⟨q.question_text, q.question_type, q.options, q.required⟩

/-- The `valid_types` list of `_validate_questions`. -/
def valid_types : List String :=
  ["text", "textarea", "Single-select", "Multi-select", "Likert"]

/-- The canonical Likert options (`likert_scale` in the source). -/
def likert_scale : List String :=
  ["Strongly Disagree", "Disagree", "Neutral", "Agree", "Strongly Agree"]

/-- The `demographic_keywords` list of `_validate_questions`. -/
def demographic_keywords : List String :=
  [ "name", "email", "phone", "age", "location", "occupation", "demographic",
    "where did you grow up", "where do you live", "home base", "grow up",
    "currently live" ]

/-- `universal_texts_lower` of `_validate_questions`. -/
def universal_texts_lower : List String :=
  get_universal_question_texts.map pyLower

/-- Type coercion step: unknown types fall back to `"text"`. -/
def coerceType (t : String) : String :=
  if t ∈ valid_types then t else "text"

/-- Options handling of `_validate_questions`: demote option-typed questions
with missing/empty options to `"text"`, force the Likert scale, null options
on text types. Returns the final `(question_type, options)`. -/
def processOptions (question_type : String) (options : Option (List String)) :
    String × Option (List String) :=
  if question_type = "Single-select" ∨ question_type = "Multi-select" ∨
      question_type = "Likert" then
    if options = none ∨ options = some [] then ("text", none)
    else if question_type = "Likert" then (question_type, some likert_scale)
    else (question_type, options)
  else (question_type, none)

/-- The loop body of `_validate_questions` for entry `q` at enumerate index
`i`: `none` means the entry is dropped. -/
def processEntry (i : Nat) (q : RawQuestion) : Option Question :=
  let question_text := pyStrip q.question_text
  if question_text = "" then none
  else if pyLower question_text ∈ universal_texts_lower then none
  else if demographic_keywords.any
      (fun keyword => pyContains keyword (pyLower question_text)) then none
  else if is_forbidden_question question_text then none
  else
    let tq := processOptions (coerceType q.question_type) q.options
    some { question_text := question_text, question_type := tq.1,
           options := tq.2, required := q.required, order := i }

/-- The `for i, q in enumerate(questions)` loop of `_validate_questions`. -/
def validateAux : Nat → List RawQuestion → List Question
  | _, [] => []
  | i, q :: qs =>
    match processEntry i q with
    | some v => v :: validateAux (i + 1) qs
    | none => validateAux (i + 1) qs

/-- `_validate_questions(questions)`: the deterministic normalizer. -/
def validate_questions (questions : List RawQuestion) : List Question :=
  validateAux 0 questions

/-! ## `llm_service.py` — context analysis and fallback -/

/-- The survey context dict fields the pipeline reads (`context.get(...)`
with `none` = key absent). -/
structure SurveyContext where
  event_type : Option String := none
  event_name : Option String := none
  goals_must_have : List String := []
  goals_interested : List String := []
  audience : Option String := none
  timing : Option String := none
  additional_context : Option String := none
  deriving DecidableEq, Repr

/-- The pre-clamp target count of `_analyze_context`:
`len(must_have)*bucket_counts["must_have"] + len(interested)*bucket_counts["interested"]`. -/
def raw_target_count (context : SurveyContext) : Nat :=
  context.goals_must_have.length * ((get_bucket_question_counts.lookup "must_have").getD 0) +
    context.goals_interested.length * ((get_bucket_question_counts.lookup "interested").getD 0)

/-- The clamped `target_question_count` computed by `_analyze_context`:
`max(min_questions, min(target, max_questions))`. -/
def target_question_count (context : SurveyContext) : Nat :=
  max get_survey_constraints.min_questions
    (min (raw_target_count context) get_survey_constraints.max_questions)

/-- The 13 hardcoded pre-event fallback questions of `_get_fallback_questions`,
given the event name and `start_order = len(required part)`. -/
def pre_event_fallback (event_name : String) (start_order : Nat) : List Question :=
  [ ⟨"What are you most looking forward to at " ++ event_name ++ "?", "Multi-select",
      some ["Music performances", "Meeting new people", "Food & drinks",
        "Overall atmosphere", "Discovering new artists", "Dancing"], true, start_order⟩,
    ⟨"How excited are you about attending " ++ event_name ++ "?", "Likert",
      some likert_scale, true, start_order + 1⟩,
    ⟨"What would make " ++ event_name ++ " a success for you?", "textarea",
      none, false, start_order + 2⟩,
    ⟨"What music genres are you most interested in?", "Multi-select",
      some ["Electronic/Dance", "Hip-Hop/R&B", "Rock/Alternative", "Pop", "Indie",
        "House/Techno", "Other"], true, start_order + 3⟩,
    ⟨"What time of day do you prefer to attend events?", "Single-select",
      some ["Morning", "Afternoon", "Evening", "Late Night", "No preference"],
      false, start_order + 4⟩,
    ⟨"How important is the food and beverage selection to your experience?", "Likert",
      some likert_scale, false, start_order + 5⟩,
    ⟨"How are you planning to get to " ++ event_name ++ "?", "Single-select",
      some ["Driving myself", "Rideshare (Uber/Lyft)", "Public transport",
        "Walking/Cycling", "Getting dropped off", "Not sure yet"], true, start_order + 6⟩,
    ⟨"What information would be most helpful to receive before the event?", "Multi-select",
      some ["Lineup schedule", "Venue map", "Parking details", "Entry procedures",
        "Food options", "Weather updates"], false, start_order + 7⟩,
    ⟨"Will you be attending alone or with others?", "Single-select",
      some ["Alone", "With 1 other person", "With a small group (3-5)",
        "With a large group (6+)"], false, start_order + 8⟩,
    ⟨"How did you hear about " ++ event_name ++ "?", "Single-select",
      some ["Social media", "Friend/Word of mouth", "Email newsletter", "Online ads",
        "Event listing sites", "Other"], true, start_order + 9⟩,
    ⟨"What made you decide to attend?", "Multi-select",
      some ["The lineup", "Price/value", "Venue location", "Friend recommendation",
        "Past experience with organizer", "FOMO"], false, start_order + 10⟩,
    ⟨"How would you rate the ticket price compared to similar events?", "Single-select",
      some ["Much better value", "Slightly better value", "About the same",
        "Slightly more expensive", "Much more expensive"], false, start_order + 11⟩,
    ⟨"What ticket type did you purchase?", "Single-select",
      some ["General Admission", "VIP", "Early Bird", "Group Package", "Other"],
      false, start_order + 12⟩ ]

/-- `_get_fallback_questions(context)`: required question-bank questions first
(formatted with the event name, `required=True`, orders `0..`), then the 13
fixed pre-event questions starting at `start_order = len(required part)`. -/
def get_fallback_questions (context : SurveyContext) : List Question :=
  let event_name := context.event_name.getD "this event"
  let required_part := get_required_questions.enum.map
    (fun p => ({ question_text := p.2.question_text_template.replace "{event_name}" event_name,
                 question_type := p.2.question_type, options := p.2.options,
                 required := true, order := p.1 } : Question))
  required_part ++ pre_event_fallback event_name required_part.length

/-! ## `llm_service.py` — the 3-call pipeline

Each LLM call is modelled by the parsed structure the code extracts from its
raw text response: call #1 and call #3 by the `{"sections": [...]}` dict that
`_parse_response` returns (empty/unparseable content and transport errors all
yield `{"sections": []}`), call #2 by a `ValidationCallResult` below. -/

structure QSection where
  section_name : String := ""
  questions : List RawQuestion := []
  deriving DecidableEq, Repr

/-- The sections structure returned by `_parse_response`. -/
structure ParsedResponse where
  sections : List QSection := []
  deriving DecidableEq, Repr

/-- `_flatten_sections(sections)`. -/
def flatten_sections (sections : List QSection) : List RawQuestion :=
  sections.foldl (fun all_questions s => all_questions ++ s.questions) []

/-- A JSON value as far as the pipeline inspects one. -/
inductive JsonVal where
  | jbool (b : Bool)
  | jstr (s : String)
  | jnum (n : Int)
  | jnull
  deriving DecidableEq, Repr

/-- Python truthiness of a JSON value. -/
def jTruthy : JsonVal → Bool
  | .jbool b => b
  | .jstr s => s ≠ ""
  | .jnum n => n ≠ 0
  | .jnull => false

/-- `dict.get(key, default)` on a parsed JSON object. -/
def jsonGet (obj : List (String × JsonVal)) (key : String) (default : JsonVal) : JsonVal :=
  (obj.lookup key).getD default

/-- What LLM call #2 produced: empty content, content `json.loads` rejects
(or a transport error), or a parsed JSON object. -/
inductive ValidationCallResult where
  | empty
  | parseFailure
  | parsed (obj : List (String × JsonVal))
  deriving DecidableEq, Repr

/-- `_validate_response`: empty content and any exception (including a JSON
parse failure) return `{"validation_passed": True}`; otherwise the parsed
object is returned as-is. -/
def validate_response : ValidationCallResult → List (String × JsonVal)
  | .empty => [("validation_passed", .jbool true)]
  | .parseFailure => [("validation_passed", .jbool true)]
  | .parsed obj => obj

/-- `_refine_questions` (LLM call #3): keep the refined sections only when
they are non-empty, otherwise keep the original set. -/
def refine_questions (questions_data : ParsedResponse) (call3 : ParsedResponse) :
    ParsedResponse :=
  if call3.sections.isEmpty then questions_data else call3

/-- `generate_survey_questions(context)` with the three LLM calls supplied as
oracles. The Python function catches every exception and returns the fallback
set, so it is total; the modelled branches are lines 64-95 of the source. -/
def generate_survey_questions (context : SurveyContext) (call1 : ParsedResponse)
    (call2 : ValidationCallResult) (call3 : ParsedResponse) : List Question :=
  if call1.sections.isEmpty then get_fallback_questions context
  else
    let validation_result := validate_response call2
    let all_questions := flatten_sections call1.sections
    if !(jTruthy (jsonGet validation_result "validation_passed" (.jbool false))) then
      let refined := refine_questions call1 call3
      validate_questions (flatten_sections refined.sections)
    else
      validate_questions all_questions

/-! ## `scrapers/base.py` — `ExtractedEventData` -/

/-- A lineup entry `{name, rank}` (a missing `name` key behaves as `""`). -/
structure Artist where
  name : String := ""
  rank : Int := 0
  deriving DecidableEq, Repr

/-- A pricing/VIP tier `{name, price}`; the merge logic only ever reads the
name, the price string is carried through untouched. -/
structure Tier where
  name : String := ""
  price : String := ""
  deriving DecidableEq, Repr

/-- The `vip_info` dict `{enabled, tiers, included}`. -/
structure VipInfo where
  enabled : Bool := false
  tiers : List Tier := []
  included : List String := []
  deriving DecidableEq, Repr

/-- `ExtractedEventData` after `__post_init__` defaults. -/
structure ExtractedEventData where
  description : Option String := none
  venue : Option String := none
  lineup : List Artist := []
  pricing_tiers : List Tier := []
  vip_info : VipInfo := {}
  deriving DecidableEq, Repr

/-- `ExtractedEventData()` — all defaults. -/
def empty_event_data : ExtractedEventData := {}

/-- `ExtractedEventData.has_data()`. -/
def ExtractedEventData.has_data (d : ExtractedEventData) : Bool :=
  optStrTruthy d.description || optStrTruthy d.venue || !d.lineup.isEmpty ||
    !d.pricing_tiers.isEmpty || d.vip_info.enabled

/-! ## `event_scraper.py` — `_merge_results` and helpers -/

/-- `_select_best_description(descriptions)`: empty list gives `""`, a single
candidate is returned directly; otherwise `pick` models the LLM's extracted
1-based-choice-minus-one (with `none` covering no-number replies and
exceptions), falling back to the longest candidate (Python `max(..., key=len)`
keeps the first maximum). -/
def select_best_description (pick : List String → Option Nat)
    (descriptions : List String) : String :=
  match descriptions with
  | [] => ""
  | [d] => d
  | _ =>
    let longest := match descriptions with
      | [] => ""
      | h :: t => t.foldl (fun best d => if d.length > best.length then d else best) h
    match pick descriptions with
    | some index => if h : index < descriptions.length then descriptions.get ⟨index, h⟩
        else longest
    | none => longest

/-- Description merge (lines 193-200): keep descriptions of length ≥ 300,
falling back to all (truthy) descriptions when none qualify, then select. -/
def merge_description (pick : List String → Option Nat)
    (results : List ExtractedEventData) : Option String :=
  let descriptions := results.filterMap (fun r =>
    match r.description with
    | some d => if d.length ≥ 300 then some d else none
    | none => none)
  let descriptions := if descriptions.isEmpty then
      results.filterMap (fun r =>
        match r.description with
        | some d => if d ≠ "" then some d else none
        | none => none)
    else descriptions
  if descriptions.isEmpty then none else some (select_best_description pick descriptions)

/-- Venue merge (lines 202-207): the last truthy venue wins. -/
def merge_venue (results : List ExtractedEventData) : Option String :=
  (results.filterMap (fun r =>
    match r.venue with
    | some v => if v ≠ "" then some v else none
    | none => none)).getLast?

/-- A generic pass of the seen-set dedup loop used for the lineup (lines
209-220) and the VIP included items (lines 268-276): keep an element iff its
key is non-empty and unseen, appending in iteration order. -/
def dedupByKey {α : Type} (key : α → String) : List α → List α × List String →
    List α × List String
  | [], acc => acc
  | x :: xs, acc =>
    let k := key x
    if k ≠ "" ∧ k ∉ acc.2 then dedupByKey key xs (acc.1 ++ [x], k :: acc.2)
    else dedupByKey key xs acc

/-- `artist.get("name", "").lower().strip()`. -/
def artistKey (a : Artist) : String := pyStrip (pyLower a.name)

/-- `item.lower().strip()` for VIP included items. -/
def itemKey (s : String) : String := pyStrip (pyLower s)

/-- Lineup merge: forward source order, first occurrence of each
case-insensitive artist name wins, original ranks preserved. -/
def merge_lineup (results : List ExtractedEventData) : List Artist :=
  (results.foldl (fun acc r => dedupByKey artistKey r.lineup acc) ([], [])).1

/-- One source's pass of the pricing-tier loop (lines 224-240): skip tiers
whose stripped name is empty, skip tiers whose stripped lowered name is
≥ 0.8-similar to a kept tier's, insert survivors at the front. -/
def foldTierDedup : List Tier → List Tier → List Tier
  | [], all_tiers => all_tiers
  | tier :: tiers, all_tiers =>
    let tier_name := pyStrip tier.name
    if tier_name = "" then foldTierDedup tiers all_tiers
    else if all_tiers.any (fun existing =>
        similarityGE80 (pyLower tier_name) (pyLower (pyStrip existing.name))) then
      foldTierDedup tiers all_tiers
    else foldTierDedup tiers (tier :: all_tiers)

/-- Pricing merge (lines 222-241): iterate sources in reverse order. -/
def merge_pricing (results : List ExtractedEventData) : List Tier :=
  results.reverse.foldl (fun all_tiers r => foldTierDedup r.pricing_tiers all_tiers) []

/-- VIP merge (lines 243-278). -/
def merge_vip (results : List ExtractedEventData) : VipInfo :=
  if results.any (fun r => r.vip_info.enabled) then
    { enabled := true,
      tiers := results.reverse.foldl (fun acc r =>
        if r.vip_info.enabled then foldTierDedup r.vip_info.tiers acc else acc) [],
      included := (results.foldl (fun acc r =>
        if r.vip_info.enabled then dedupByKey itemKey r.vip_info.included acc else acc)
        ([], [])).1 }
  else { enabled := false, tiers := [], included := [] }

/-- `_merge_results(results)` (the description-selection LLM call is the
`pick` oracle; for fewer than two candidate descriptions it is never made). -/
def merge_results (pick : List String → Option Nat)
    (results : List ExtractedEventData) : ExtractedEventData :=
  { description := merge_description pick results,
    venue := merge_venue results,
    lineup := merge_lineup results,
    pricing_tiers := merge_pricing results,
    vip_info := merge_vip results }

/-! ## `event_scraper.py` — URL handling and `extract_from_urls` -/

/-- `_normalize_url(url)`: strip, drop the query string, default the scheme
to `https://`. -/
def normalize_url (url : String) : String :=
  let url := pyStrip url
  let url := ((url.splitOn "?").headD url)
  if url.startsWith "http://" || url.startsWith "https://" then url
  else "https://" ++ url

/-- Python `rstrip("/")`. -/
def rstripSlash (s : String) : String :=
  String.mk (List.rdropWhile (fun c => c = '/') s.toList)

/-- `_transform_urls_for_provider(urls)`: append each normalized URL; for
Flicket URLs additionally insert the base page at the very front (when a
`/reservation` URL was given) or append the `/reservation` companion. -/
def transform_urls_for_provider (urls : List String) : List String :=
  urls.foldl (fun expanded_urls url =>
    let normalized := normalize_url url
    let expanded_urls := expanded_urls ++ [normalized]
    if pyContains "flicket.co.nz" (pyLower normalized) then
      if normalized.endsWith "/reservation" then
        (normalized.dropRight "/reservation".length) :: expanded_urls
      else
        expanded_urls ++ [rstripSlash normalized ++ "/reservation"]
    else expanded_urls) []

/-- `extract_from_urls(urls)` on a fresh scraper (empty cache, so the cache
branch is a miss). `fetch` models one `extract_from_url` task: `none` is a
raised exception, and sources without data are filtered out exactly as
`safe_extract` does. -/
def extract_from_urls (fetch : String → Option ExtractedEventData)
    (pick : List String → Option Nat) (urls : List String) : ExtractedEventData :=
  if urls.isEmpty then empty_event_data
  else
    let expanded_urls := transform_urls_for_provider urls
    let results := expanded_urls.filterMap (fun u =>
      match fetch u with
      | some r => if r.has_data then some r else none
      | none => none)
    if results.isEmpty then empty_event_data
    else merge_results pick results

/-! ## `api/events.py` — the `extract-data` endpoint guard -/

/-- A FastAPI `HTTPException`. -/
structure HTTPError where
  status_code : Nat
  detail : String
  deriving DecidableEq, Repr

/-- `extract_event_data(request)` (lines 228-242): reject an empty URL list
with HTTP 400 before constructing the scraper; `handler` abstracts the
single-URL or multi-URL scraper dispatch of lines 232-242. -/
def extract_event_data (handler : List String → Except HTTPError ExtractedEventData)
    (urls : List String) : Except HTTPError ExtractedEventData :=
  if urls.isEmpty then .error ⟨400, "At least one URL is required"⟩
  else handler urls

/-! ## Spec-side definitions for refinement comparisons -/

/-- Claim C8's pricing-merge rule exactly as worded: iterate sources in
reverse input order and insert each tier at the front iff no already-kept
tier's name is case-insensitively ≥ 0.8-similar to it (no name trimming, no
skipping of empty names). -/
def merge_pricing_claim (results : List ExtractedEventData) : List Tier :=
  results.reverse.foldl (fun kept r =>
    r.pricing_tiers.foldl (fun kept tier =>
      if kept.any (fun existing =>
          similarityGE80 (pyLower tier.name) (pyLower existing.name)) then kept
      else tier :: kept) kept) []

/-- Claim C8's per-source pass as amended: names are trimmed before the
similarity comparison and tiers whose trimmed name is empty are skipped. -/
def amendedTierPass : List Tier → List Tier → List Tier
  | [], kept => kept
  | tier :: tiers, kept =>
    if pyStrip tier.name = "" then amendedTierPass tiers kept
    else if kept.any (fun existing =>
        similarityGE80 (pyLower (pyStrip tier.name))
          (pyLower (pyStrip existing.name))) then amendedTierPass tiers kept
    else amendedTierPass tiers (tier :: kept)

/-- Claim C8's rule as amended: reverse source order, each tier with a
non-empty trimmed name inserted at the front iff no kept tier's trimmed name
is case-insensitively ≥ 0.8-similar. -/
def merge_pricing_amended (results : List ExtractedEventData) : List Tier :=
  results.reverse.foldl (fun kept r => amendedTierPass r.pricing_tiers kept) []

/-! ## Claim theorems -/

/-- Claim C2 (confirmed): the derived target question count is
`4 × |must_have| + 2 × |interested|` clamped into `[10, 25]`; for
`must_have = ["pricing"]`, `interested = ["lineup"]` the raw count is 6 and
the clamped target is 10. -/
theorem c2_target_question_count :
    (∀ context : SurveyContext,
      target_question_count context =
        min (max (4 * context.goals_must_have.length +
          2 * context.goals_interested.length) 10) 25)
    ∧ raw_target_count { goals_must_have := ["pricing"], goals_interested := ["lineup"] } = 6
    ∧ target_question_count
        { goals_must_have := ["pricing"], goals_interested := ["lineup"] } = 10 := by
  refine ⟨fun context => ?_, by decide, by decide⟩
  have h4 : (get_bucket_question_counts.lookup "must_have").getD 0 = 4 := rfl
  have h2 : (get_bucket_question_counts.lookup "interested").getD 0 = 2 := rfl
  simp only [target_question_count, raw_target_count, h4, h2, get_survey_constraints]
  omega

/-- Claim C10 (confirmed): for every panorama id and config, the first three
universal questions are First Name, Last Name and Email Address, in that
order, each with `required = True` and `is_universal = True`. -/
theorem c10_universal_required_first :
    ∀ (panorama_id : String) (config : List (String × Bool)),
      (get_universal_questions panorama_id config).take 3 =
        [ ⟨"First Name", "text", none, true, -10, panorama_id, true⟩,
          ⟨"Last Name", "text", none, true, -9, panorama_id, true⟩,
          ⟨"Email Address", "email", none, true, -8, panorama_id, true⟩ ] :=
  fun _ _ => rfl

/-- Claim C9, counterexample: `extract_from_urls` called with an empty URL
list is not rejected — it returns normally with the empty
`ExtractedEventData` (which carries no data), exactly the absorbed degraded
behavior the claim rules out. -/
theorem c9_counterexample :
    extract_from_urls (fun _ => none) (fun _ => none) [] = empty_event_data
    ∧ empty_event_data.has_data = false :=
  ⟨rfl, rfl⟩

/-- Claim C9 as amended: the service-level `extract_from_urls` absorbs an
empty URL list into the empty `ExtractedEventData`; the boundary rejection
lives one layer up, in the `extract-data` endpoint, which answers HTTP 400
before invoking the scraper. -/
theorem c9_empty_url_list :
    ∀ (fetch : String → Option ExtractedEventData) (pick : List String → Option Nat)
      (handler : List String → Except HTTPError ExtractedEventData),
      extract_from_urls fetch pick [] = empty_event_data
      ∧ extract_event_data handler [] =
          .error ⟨400, "At least one URL is required"⟩ :=
  fun _ _ _ => ⟨rfl, rfl⟩

set_option maxRecDepth 8000 in
/-- Claim C8, counterexample: a tier whose name is pure whitespace is skipped
by `_merge_results` even though no already-kept tier is ≥ 0.8-similar to it,
so the claim's "inserted if and only if" description does not hold as
stated. -/
theorem c8_counterexample :
    merge_pricing_claim [{ pricing_tiers := [⟨"   ", "$10"⟩] }] = [⟨"   ", "$10"⟩]
    ∧ merge_pricing [{ pricing_tiers := [⟨"   ", "$10"⟩] }] = []
    ∧ merge_pricing_claim [{ pricing_tiers := [⟨"   ", "$10"⟩] }] ≠
        merge_pricing [{ pricing_tiers := [⟨"   ", "$10"⟩] }] := by
  refine ⟨rfl, rfl, by decide⟩

set_option maxRecDepth 8000 in
/-- Claim C8 as amended (tier names are trimmed before the similarity check
and tiers with empty trimmed names are skipped): the code's pricing merge
coincides with that rule on every input, and on the claim's examples
"Early Bird"/"Earlybird" collapse to a single entry while "VIP" and
"General Admission" both survive. -/
theorem c8_pricing_fuzzy_merge :
    (∀ results : List ExtractedEventData,
      merge_pricing results = merge_pricing_amended results)
    ∧ merge_pricing
        [ { pricing_tiers := [⟨"Early Bird", "$50"⟩] },
          { pricing_tiers := [⟨"Earlybird", "$45"⟩] } ] = [⟨"Earlybird", "$45"⟩]
    ∧ merge_pricing
        [ { pricing_tiers := [⟨"VIP", "$150"⟩] },
          { pricing_tiers := [⟨"General Admission", "$60"⟩] } ] =
        [⟨"VIP", "$150"⟩, ⟨"General Admission", "$60"⟩] := by
  have hstep : ∀ (l : List Tier) (acc : List Tier),
      foldTierDedup l acc = amendedTierPass l acc := by
    intro l
    induction l with
    | nil => intro acc; rfl
    | cons t rest ih =>
      intro acc
      simp only [foldTierDedup, amendedTierPass]
      split_ifs
      · exact ih acc
      · exact ih acc
      · exact ih (t :: acc)
  have hfold : ∀ (l : List ExtractedEventData) (init : List Tier),
      l.foldl (fun all_tiers r => foldTierDedup r.pricing_tiers all_tiers) init =
        l.foldl (fun kept r => amendedTierPass r.pricing_tiers kept) init := by
    intro l
    induction l with
    | nil => intro init; rfl
    | cons x xs ih =>
      intro init
      rw [List.foldl_cons, List.foldl_cons, hstep, ih]
  refine ⟨fun results => hfold results.reverse [], by decide, by decide⟩

/-- Claim C1, counterexample: when LLM call #1 yields no sections the
pipeline does return the static fallback set, but that set always has 15
questions while the target question count for the scenario context is 10 —
the fallback is not sized to the target count. -/
theorem c1_counterexample :
    (generate_survey_questions
        { goals_must_have := ["pricing"], goals_interested := ["lineup"] }
        ⟨[]⟩ .empty ⟨[]⟩).length = 15
    ∧ target_question_count
        { goals_must_have := ["pricing"], goals_interested := ["lineup"] } = 10
    ∧ (generate_survey_questions
        { goals_must_have := ["pricing"], goals_interested := ["lineup"] }
        ⟨[]⟩ .empty ⟨[]⟩).length ≠
        target_question_count
          { goals_must_have := ["pricing"], goals_interested := ["lineup"] } := by
  refine ⟨rfl, by decide, by decide⟩

/-- Claim C1 as amended: whatever the context and the later calls, an empty
or unparseable LLM call #1 (no sections) makes `generate_survey_questions`
return the static fallback set without raising; that set has the fixed size
15, its two-question head is the required question-bank questions (formatted
with the event name, each `required = True`), and the remainder is exactly
the 13 fixed pre-event fallback questions. -/
theorem c1_fallback_on_empty_generation :
    ∀ (context : SurveyContext) (call2 : ValidationCallResult) (call3 : ParsedResponse),
      generate_survey_questions context ⟨[]⟩ call2 call3 = get_fallback_questions context
      ∧ (get_fallback_questions context).length = 15
      ∧ ((get_fallback_questions context).take 2).map
          (fun q => (q.required, q.question_text)) =
          get_required_questions.map (fun rq => (true,
            rq.question_text_template.replace "{event_name}"
              (context.event_name.getD "this event")))
      ∧ (get_fallback_questions context).drop 2 =
          pre_event_fallback (context.event_name.getD "this event") 2 :=
  fun _ _ _ => ⟨rfl, rfl, rfl, rfl⟩

/-! ## Normalizer lemmas (shared by C3, C4, C5) -/

theorem coerceType_idem (t : String) : coerceType (coerceType t) = coerceType t := by
  by_cases h : t ∈ valid_types
  · have h1 : coerceType t = t := by rw [coerceType, if_pos h]
    rw [h1]
    exact h1
  · have h1 : coerceType t = "text" := by rw [coerceType, if_neg h]
    rw [h1]
    rfl

theorem processOptions_stable (t : String) (o : Option (List String)) :
    processOptions (coerceType (processOptions (coerceType t) o).1)
      (processOptions (coerceType t) o).2 = processOptions (coerceType t) o := by
  rcases hX : processOptions (coerceType t) o with ⟨t2, o2⟩
  show processOptions (coerceType t2) o2 = (t2, o2)
  unfold processOptions at hX
  split_ifs at hX with hc ho hl
  · injection hX with hA hB
    subst hA
    subst hB
    rfl
  · injection hX with hA hB
    subst hB
    rw [← hA, coerceType_idem, hl]
    rfl
  · injection hX with hA hB
    subst hB
    rw [← hA, coerceType_idem]
    unfold processOptions
    rw [if_pos hc, if_neg ho, if_neg hl]
  · injection hX with hA hB
    subst hB
    rw [← hA, coerceType_idem]
    unfold processOptions
    rw [if_neg hc]

theorem processOptions_likert (t : String) (o : Option (List String))
    (h : (processOptions (coerceType t) o).1 = "Likert") :
    (processOptions (coerceType t) o).2 = some likert_scale := by
  rcases hX : processOptions (coerceType t) o with ⟨t2, o2⟩
  rw [hX] at h
  have ht2 : t2 = "Likert" := h
  show o2 = some likert_scale
  unfold processOptions at hX
  split_ifs at hX with hc ho hl
  · injection hX with hA hB
    exact absurd (hA.trans ht2) (by decide)
  · injection hX with hA hB
    exact hB.symm
  · injection hX with hA hB
    exact absurd (hA.trans ht2) hl
  · injection hX with hA hB
    exact absurd (Or.inr (Or.inr (hA.trans ht2))) hc

theorem processEntry_some_stable (i : Nat) (q : RawQuestion) (v : Question)
    (h : processEntry i q = some v) :
    ∀ j, processEntry j v.toRaw = some { v with order := j } := by
  intro j
  simp only [processEntry] at h
  split_ifs at h with h1 h2 h3 h4 <;> simp at h
  subst h
  simp only [processEntry, Question.toRaw, pyStrip_idempotent]
  rw [if_neg h1, if_neg h2, if_neg h3, if_neg h4]
  rw [processOptions_stable]

theorem processEntry_order (i : Nat) (q : RawQuestion) (v : Question)
    (h : processEntry i q = some v) : v.order = i := by
  simp only [processEntry] at h
  split_ifs at h <;> simp at h
  subst h
  rfl

theorem validateAux_cons_some {i : Nat} {q : RawQuestion} {qs : List RawQuestion}
    {v : Question} (h : processEntry i q = some v) :
    validateAux i (q :: qs) = v :: validateAux (i + 1) qs := by
  simp [validateAux, h]

theorem validateAux_cons_none {i : Nat} {q : RawQuestion} {qs : List RawQuestion}
    (h : processEntry i q = none) :
    validateAux i (q :: qs) = validateAux (i + 1) qs := by
  simp [validateAux, h]

theorem mem_validateAux {v : Question} :
    ∀ {n : Nat} {qs : List RawQuestion}, v ∈ validateAux n qs →
      ∃ i q, processEntry i q = some v := by
  intro n qs
  induction qs generalizing n with
  | nil => intro h; simp [validateAux] at h
  | cons q qs ih =>
    intro h
    rw [validateAux] at h
    cases hpe : processEntry n q with
    | some w =>
      rw [hpe] at h
      rcases List.mem_cons.mp h with h | h
      · exact ⟨n, q, by rw [hpe, h]⟩
      · exact ih h
    | none =>
      rw [hpe] at h
      exact ih h

theorem validateAux_map_toRaw (l : List Question)
    (hl : ∀ v ∈ l, ∀ j, processEntry j v.toRaw = some { v with order := j }) :
    ∀ n, validateAux n (l.map Question.toRaw) =
      (List.enumFrom n l).map (fun p => { p.2 with order := p.1 }) := by
  induction l with
  | nil => intro n; rfl
  | cons v t ih =>
    intro n
    have hv := hl v (List.mem_cons_self v t) n
    simp only [List.map_cons, validateAux, hv, List.enumFrom]
    rw [ih (fun w hw => hl w (List.mem_cons_of_mem _ hw)) (n + 1)]

theorem validateAux_length_le : ∀ (n : Nat) (qs : List RawQuestion),
    (validateAux n qs).length ≤ qs.length := by
  intro n qs
  induction qs generalizing n with
  | nil => simp [validateAux]
  | cons q t ih =>
    rw [validateAux]
    cases hpe : processEntry n q with
    | some w => simpa using ih (n + 1)
    | none =>
      simp only [List.length_cons]
      exact Nat.le_succ_of_le (ih (n + 1))

theorem validateAux_order_lb : ∀ (n : Nat) (qs : List RawQuestion) (v : Question),
    v ∈ validateAux n qs → n ≤ v.order := by
  intro n qs
  induction qs generalizing n with
  | nil => intro v h; simp [validateAux] at h
  | cons q t ih =>
    intro v h
    rw [validateAux] at h
    cases hpe : processEntry n q with
    | some w =>
      rw [hpe] at h
      rcases List.mem_cons.mp h with h | h
      · rw [h]
        exact Nat.le_of_eq (processEntry_order n q w hpe).symm
      · exact Nat.le_of_succ_le (ih (n + 1) v h)
    | none =>
      rw [hpe] at h
      exact Nat.le_of_succ_le (ih (n + 1) v h)

theorem validateAux_orders_pairwise : ∀ (n : Nat) (qs : List RawQuestion),
    ((validateAux n qs).map Question.order).Pairwise (· < ·) := by
  intro n qs
  induction qs generalizing n with
  | nil => simp [validateAux]
  | cons q t ih =>
    rw [validateAux]
    cases hpe : processEntry n q with
    | some v =>
      simp only [List.map_cons]
      refine List.Pairwise.cons ?_ (ih (n + 1))
      intro b hb
      obtain ⟨w, hw, rfl⟩ := List.mem_map.mp hb
      have hlb := validateAux_order_lb (n + 1) t w hw
      have hv := processEntry_order n q v hpe
      omega
    | none => exact ih (n + 1)

theorem validateAux_orders_of_full_length : ∀ (n : Nat) (qs : List RawQuestion),
    (validateAux n qs).length = qs.length →
    (validateAux n qs).map Question.order = List.range' n qs.length := by
  intro n qs
  induction qs generalizing n with
  | nil => intro _; rfl
  | cons q t ih =>
    intro hlen
    cases hpe : processEntry n q with
    | some v =>
      rw [validateAux_cons_some hpe] at hlen ⊢
      simp only [List.length_cons] at hlen
      simp only [List.map_cons, List.length_cons, List.range']
      rw [processEntry_order n q v hpe, ih (n + 1) (by omega)]
    | none =>
      rw [validateAux_cons_none hpe] at hlen
      have := validateAux_length_le (n + 1) t
      simp only [List.length_cons] at hlen
      omega

theorem enumFrom_reorder_self : ∀ (n : Nat) (l : List Question),
    l.map Question.order = List.range' n l.length →
    (List.enumFrom n l).map (fun p => { p.2 with order := p.1 }) = l := by
  intro n l
  induction l generalizing n with
  | nil => intro _; rfl
  | cons v t ih =>
    intro h
    simp only [List.map_cons, List.length_cons, List.range'] at h
    injection h with h1 h2
    simp only [List.enumFrom, List.map_cons]
    rw [ih (n + 1) h2]
    congr 1
    rw [← h1]

theorem enumFrom_reorder_orders : ∀ (n : Nat) (l : List Question),
    ((List.enumFrom n l).map (fun p => { p.2 with order := p.1 })).map Question.order =
      List.range' n l.length := by
  intro n l
  induction l generalizing n with
  | nil => rfl
  | cons v t ih =>
    simp only [List.enumFrom, List.map_cons, List.length_cons, List.range']
    rw [ih (n + 1)]

/-! ## C3, C4, C5 -/

/-- A raw list whose first entry is dropped (empty text), exhibiting the
non-idempotence of the normalizer. -/
def c3_input : List RawQuestion :=
  [{ question_text := "" }, { question_text := "Will you attend?" }]

/-- Claim C3, counterexample: normalizing the normalizer's own output again
changes it — the surviving question kept `order = 1` (its input index), and
the second pass renumbers it to 0. -/
theorem c3_counterexample :
    validate_questions ((validate_questions c3_input).map Question.toRaw) ≠
      validate_questions c3_input := by decide

/-- Claim C3 as amended: re-normalizing the normalizer's output drops nothing
and changes no field except `order`, which is renumbered to the position in
the output; the output is reproduced identically if and only if its `order`
values are already `0, 1, ..., n-1` — in particular whenever the first pass
dropped no entry (a drop after the last surviving entry also leaves the
orders contiguous, so re-normalization is identical then too). -/
theorem c3_renormalization (qs : List RawQuestion) :
    validate_questions ((validate_questions qs).map Question.toRaw) =
      (validate_questions qs).enum.map (fun p => { p.2 with order := p.1 })
    ∧ (validate_questions ((validate_questions qs).map Question.toRaw) =
          validate_questions qs ↔
        (validate_questions qs).map Question.order =
          List.range (validate_questions qs).length)
    ∧ ((validate_questions qs).length = qs.length →
        validate_questions ((validate_questions qs).map Question.toRaw) =
          validate_questions qs) := by
  have hmain : validate_questions ((validate_questions qs).map Question.toRaw) =
      (List.enumFrom 0 (validate_questions qs)).map
        (fun p => { p.2 with order := p.1 }) := by
    refine validateAux_map_toRaw (validate_questions qs) ?_ 0
    intro v hv j
    obtain ⟨i, q, h⟩ := mem_validateAux hv
    exact processEntry_some_stable i q v h j
  refine ⟨hmain, ⟨fun heq => ?_, fun horders => ?_⟩, fun hlen => ?_⟩
  · have hre : (List.enumFrom 0 (validate_questions qs)).map
        (fun p => { p.2 with order := p.1 }) = validate_questions qs :=
      hmain.symm.trans heq
    have h2 := congrArg (List.map Question.order) hre
    rw [enumFrom_reorder_orders 0 (validate_questions qs)] at h2
    rw [List.range_eq_range']
    exact h2.symm
  · rw [hmain]
    refine enumFrom_reorder_self 0 (validate_questions qs) ?_
    rw [← List.range_eq_range']
    exact horders
  · rw [hmain]
    refine enumFrom_reorder_self 0 (validate_questions qs) ?_
    rw [hlen]
    exact validateAux_orders_of_full_length 0 qs hlen

/-- Witness for C3's amended claim at a concrete input with no dropped
entries. -/
theorem c3_renormalization_witness :
    validate_questions
        ((validate_questions [({ question_text := "Will you attend?" } : RawQuestion)]).map
          Question.toRaw) =
      validate_questions [({ question_text := "Will you attend?" } : RawQuestion)] :=
  (c3_renormalization [{ question_text := "Will you attend?" }]).2.2 (by decide)

/-- A raw list with a dropped first entry for the C4 counterexample. -/
def c4_input : List RawQuestion :=
  [{ question_text := " " }, { question_text := "Which artist excites you most?" }]

/-- Claim C4, counterexample: after the first (blank) entry is dropped, the
surviving question carries `order = 1` — its index in the input — so the
output orders are not `0, 1, ..., n-1`. -/
theorem c4_counterexample :
    (validate_questions c4_input).map Question.order ≠
      List.range (validate_questions c4_input).length := by decide

/-- Claim C4 as amended: the normalizer assigns each surviving question the
`enumerate` index of its input entry, so output orders are strictly
increasing, and they equal `0, 1, ..., n-1` exactly when no entry was
dropped. -/
theorem c4_output_orders (qs : List RawQuestion) :
    ((validate_questions qs).map Question.order).Pairwise (· < ·)
    ∧ ((validate_questions qs).length = qs.length →
        (validate_questions qs).map Question.order = List.range qs.length) := by
  refine ⟨validateAux_orders_pairwise 0 qs, fun hlen => ?_⟩
  rw [List.range_eq_range']
  exact validateAux_orders_of_full_length 0 qs hlen

/-- Witness for C4's amended claim at a concrete no-drop input. -/
theorem c4_output_orders_witness :
    ((validate_questions [({ question_text := "Will you come back soon?" } : RawQuestion)]).map
        Question.order).Pairwise (· < ·)
    ∧ (validate_questions [({ question_text := "Will you come back soon?" } : RawQuestion)]).map
        Question.order =
        List.range [({ question_text := "Will you come back soon?" } : RawQuestion)].length :=
  ⟨(c4_output_orders [{ question_text := "Will you come back soon?" }]).1,
    (c4_output_orders [{ question_text := "Will you come back soon?" }]).2 (by decide)⟩

/-- Claim C5 (confirmed): every normalized question whose type is `"Likert"`
carries exactly the canonical 5-point scale as options, no matter what the
input supplied. -/
theorem c5_likert_canonical (qs : List RawQuestion) (v : Question)
    (hv : v ∈ validate_questions qs) (ht : v.question_type = "Likert") :
    v.options = some likert_scale := by
  obtain ⟨i, q, h⟩ := mem_validateAux hv
  simp only [processEntry] at h
  split_ifs at h <;> simp at h
  subst h
  exact processOptions_likert q.question_type q.options ht

/-- Witness for C5 at a Likert question supplied with wrong options. -/
theorem c5_likert_canonical_witness :
    (({ question_text := "I am excited about this event", question_type := "Likert",
        options := some likert_scale, required := true, order := 0 } : Question).options) =
      some likert_scale :=
  c5_likert_canonical
    [{ question_text := " I am excited about this event ", question_type := "Likert",
       options := some ["Yes", "No"], required := true }]
    { question_text := "I am excited about this event", question_type := "Likert",
      options := some likert_scale, required := true, order := 0 }
    (by decide) (by decide)

/-! ## C6 -/

theorem generate_nonempty_reduction (context : SurveyContext) (call1 : ParsedResponse)
    (call2 : ValidationCallResult) (call3 : ParsedResponse)
    (h1 : call1.sections.isEmpty = false) :
    generate_survey_questions context call1 call2 call3 =
      if !(jTruthy (jsonGet (validate_response call2) "validation_passed" (.jbool false))) then
        validate_questions (flatten_sections (refine_questions call1 call3).sections)
      else validate_questions (flatten_sections call1.sections) := by
  unfold generate_survey_questions
  rw [if_neg (by simp [h1])]

/-- A context and two parsed responses used to exercise the validation
branch. -/
def c6_call1 : ParsedResponse :=
  ⟨[⟨"Expectations", [{ question_text := "Will you attend?" }]⟩]⟩

def c6_call3 : ParsedResponse :=
  ⟨[⟨"Expectations", [{ question_text := "Which artist excites you most?" }]⟩]⟩

/-- Claim C6, counterexample: a well-formed JSON validation response that
simply lacks the `validation_passed` field (here `{}`) does not default to
passed — the pipeline runs refinement and ships call #3's questions instead
of the generated set. -/
theorem c6_counterexample :
    generate_survey_questions {} c6_call1 (.parsed []) c6_call3 ≠
      validate_questions (flatten_sections c6_call1.sections) := by decide

/-- Claim C6 as amended: the validation step is fail-open only for empty or
unparseable responses — those default `validation_passed` to true, skip
refinement (LLM call #3) and pass the generated set unchanged to
normalization; but a parsed JSON object with no `validation_passed` key is
read as `false` via `dict.get`'s default, so refinement runs (the original
set survives only if refinement returns no sections). -/
theorem c6_validation_fail_open (context : SurveyContext) (call1 : ParsedResponse)
    (call3 : ParsedResponse) (h1 : call1.sections.isEmpty = false) :
    generate_survey_questions context call1 .empty call3 =
      validate_questions (flatten_sections call1.sections)
    ∧ generate_survey_questions context call1 .parseFailure call3 =
      validate_questions (flatten_sections call1.sections)
    ∧ ∀ obj : List (String × JsonVal), obj.lookup "validation_passed" = none →
        generate_survey_questions context call1 (.parsed obj) call3 =
          validate_questions (flatten_sections (refine_questions call1 call3).sections) := by
  refine ⟨?_, ?_, ?_⟩
  · rw [generate_nonempty_reduction context call1 .empty call3 h1]
    rfl
  · rw [generate_nonempty_reduction context call1 .parseFailure call3 h1]
    rfl
  · intro obj hobj
    rw [generate_nonempty_reduction context call1 (.parsed obj) call3 h1]
    have hget : jsonGet (validate_response (.parsed obj)) "validation_passed"
        (.jbool false) = .jbool false := by
      simp [validate_response, jsonGet, hobj]
    rw [hget]
    rfl

/-- Witness for C6's amended claim at concrete inputs. -/
theorem c6_validation_fail_open_witness :
    generate_survey_questions {} c6_call1 .empty c6_call3 =
      validate_questions (flatten_sections c6_call1.sections)
    ∧ generate_survey_questions {} c6_call1 (.parsed []) c6_call3 =
        validate_questions (flatten_sections (refine_questions c6_call1 c6_call3).sections) :=
  ⟨(c6_validation_fail_open {} c6_call1 c6_call3 (by decide)).1,
    (c6_validation_fail_open {} c6_call1 c6_call3 (by decide)).2.2 [] (by decide)⟩

/-! ## C7 — merge lemmas -/

theorem dedupByKey_id {α : Type} (key : α → String) :
    ∀ (l : List α) (acc : List α) (seen : List String),
      (∀ x ∈ l, key x ≠ "" ∧ key x ∉ seen) → (l.map key).Nodup →
      dedupByKey key l (acc, seen) = (acc ++ l, (l.map key).reverse ++ seen) := by
  intro l
  induction l with
  | nil => intro acc seen _ _; simp [dedupByKey]
  | cons x t ih =>
    intro acc seen hmem hnd
    obtain ⟨hk, hks⟩ := hmem x (List.mem_cons_self x t)
    simp only [List.map_cons, List.nodup_cons] at hnd
    simp only [dedupByKey]
    rw [if_pos ⟨hk, hks⟩]
    rw [ih (acc ++ [x]) (key x :: seen) ?_ hnd.2]
    · simp [List.append_assoc]
    · intro y hy
      refine ⟨(hmem y (List.mem_cons_of_mem x hy)).1, ?_⟩
      simp only [List.mem_cons]
      rintro (hyx | hyseen)
      · exact hnd.1 (hyx ▸ List.mem_map_of_mem key hy)
      · exact (hmem y (List.mem_cons_of_mem x hy)).2 hyseen

/-- The stripped-lowered name the pricing merge compares on. -/
def tierKey (t : Tier) : String := pyLower (pyStrip t.name)

/-- The dissimilarity relation needed so that a later tier is never treated
as a duplicate of an earlier one (in the direction the code compares). -/
def tierDissim (a b : Tier) : Prop := similarityGE80 (tierKey b) (tierKey a) = false

instance (a b : Tier) : Decidable (tierDissim a b) := by
  unfold tierDissim
  infer_instance

theorem foldTierDedup_reverse :
    ∀ (l acc : List Tier),
      (∀ t ∈ l, pyStrip t.name ≠ "") → l.Pairwise tierDissim →
      (∀ t ∈ l, ∀ e ∈ acc, similarityGE80 (tierKey t) (tierKey e) = false) →
      foldTierDedup l acc = l.reverse ++ acc := by
  intro l
  induction l with
  | nil => intro acc _ _ _; simp [foldTierDedup]
  | cons t rest ih =>
    intro acc hne hpw hacc
    have ht := hne t (List.mem_cons_self t rest)
    have hdup : (acc.any fun existing =>
        similarityGE80 (pyLower (pyStrip t.name)) (pyLower (pyStrip existing.name))) = false := by
      rw [List.any_eq_false]
      intro e he
      have hx := hacc t (List.mem_cons_self t rest) e he
      simp only [tierKey] at hx
      simp [hx]
    rw [List.pairwise_cons] at hpw
    simp only [foldTierDedup]
    rw [if_neg ht, hdup]
    simp only [Bool.false_eq_true, if_false]
    rw [ih (t :: acc) (fun u hu => hne u (List.mem_cons_of_mem t hu)) hpw.2 ?_]
    · simp [List.append_assoc]
    · intro u hu e he
      rcases List.mem_cons.mp he with he | he
      · exact he ▸ hpw.1 u hu
      · exact hacc u (List.mem_cons_of_mem t hu) e he

theorem merge_description_single (pick : List String → Option Nat)
    (d : ExtractedEventData) (hdesc : d.description ≠ some "") :
    merge_description pick [d] = d.description := by
  cases hd : d.description with
  | none => simp [merge_description, hd]
  | some s =>
    have hs : s ≠ "" := by
      intro h
      exact hdesc (by rw [hd, h])
    by_cases hlen : s.length ≥ 300
    · simp [merge_description, hd, hlen, select_best_description]
    · simp [merge_description, hd, hlen, hs, select_best_description]

theorem merge_venue_single (d : ExtractedEventData) (hven : d.venue ≠ some "") :
    merge_venue [d] = d.venue := by
  cases hv : d.venue with
  | none => simp [merge_venue, hv]
  | some v =>
    have : v ≠ "" := by
      intro h
      exact hven (by rw [hv, h])
    simp [merge_venue, hv, this]

theorem merge_lineup_single (d : ExtractedEventData)
    (hne : ∀ a ∈ d.lineup, artistKey a ≠ "")
    (hnd : (d.lineup.map artistKey).Nodup) :
    merge_lineup [d] = d.lineup := by
  unfold merge_lineup
  rw [List.foldl_cons, List.foldl_nil]
  rw [dedupByKey_id artistKey d.lineup [] []
    (fun a ha => ⟨hne a ha, List.not_mem_nil _⟩) hnd]
  simp

theorem merge_pricing_single (d : ExtractedEventData)
    (hne : ∀ t ∈ d.pricing_tiers, pyStrip t.name ≠ "")
    (hpw : d.pricing_tiers.Pairwise tierDissim) :
    merge_pricing [d] = d.pricing_tiers.reverse := by
  unfold merge_pricing
  rw [List.reverse_singleton, List.foldl_cons, List.foldl_nil]
  rw [foldTierDedup_reverse d.pricing_tiers [] hne hpw (fun t _ e he => absurd he (List.not_mem_nil e))]
  simp

theorem merge_vip_single (d : ExtractedEventData)
    (hdis : d.vip_info.enabled = false → d.vip_info = {})
    (hne : ∀ t ∈ d.vip_info.tiers, pyStrip t.name ≠ "")
    (hpw : d.vip_info.tiers.Pairwise tierDissim)
    (hine : ∀ s ∈ d.vip_info.included, itemKey s ≠ "")
    (hind : (d.vip_info.included.map itemKey).Nodup) :
    merge_vip [d] = { enabled := d.vip_info.enabled,
                      tiers := d.vip_info.tiers.reverse,
                      included := d.vip_info.included } := by
  cases henb : d.vip_info.enabled with
  | false =>
    have hd := hdis henb
    simp [merge_vip, hd, List.foldl_cons, List.foldl_nil]
  | true =>
    have hrev : foldTierDedup d.vip_info.tiers [] = d.vip_info.tiers.reverse ++ [] :=
      foldTierDedup_reverse d.vip_info.tiers [] hne hpw
        (fun t _ e he => absurd he (List.not_mem_nil e))
    have hinc : dedupByKey itemKey d.vip_info.included ([], []) =
        ([] ++ d.vip_info.included, (d.vip_info.included.map itemKey).reverse ++ []) :=
      dedupByKey_id itemKey d.vip_info.included [] []
        (fun s hs => ⟨hine s hs, List.not_mem_nil _⟩) hind
    simp [merge_vip, henb, hrev, hinc, List.foldl_cons, List.foldl_nil]

/-! ## C7 — claim theorems -/

/-- A source whose two pricing tiers come back in reversed order. -/
def c7_bad : ExtractedEventData :=
  { pricing_tiers := [⟨"VIP", "$150"⟩, ⟨"General Admission", "$60"⟩] }

set_option maxRecDepth 8000 in
/-- Claim C7, counterexample: merging the single-element list `[c7_bad]` does
not return `c7_bad` — the insert-at-front pricing loop reverses its two
tiers. -/
theorem c7_counterexample :
    merge_results (fun _ => none) [c7_bad] ≠ c7_bad
    ∧ (merge_results (fun _ => none) [c7_bad]).pricing_tiers =
        [⟨"General Admission", "$60"⟩, ⟨"VIP", "$150"⟩] := by
  refine ⟨by decide, by decide⟩

/-- Claim C7 as amended: merging a single-element list `[d]` of well-formed
data (no empty-string description or venue, non-empty pairwise-distinct
case-insensitive lineup names, non-empty pairwise sub-0.8-similar trimmed
tier names, the canonical empty `vip_info` when disabled, distinct non-empty
VIP included items) preserves the description, venue, lineup, VIP flag and
VIP included items, but returns `pricing_tiers` — and the VIP tiers — in
reversed order. -/
theorem c7_single_source_merge (pick : List String → Option Nat)
    (d : ExtractedEventData)
    (hdesc : d.description ≠ some "")
    (hven : d.venue ≠ some "")
    (hart_ne : ∀ a ∈ d.lineup, artistKey a ≠ "")
    (hart_nd : (d.lineup.map artistKey).Nodup)
    (hp_ne : ∀ t ∈ d.pricing_tiers, pyStrip t.name ≠ "")
    (hp_pw : d.pricing_tiers.Pairwise tierDissim)
    (hvip_dis : d.vip_info.enabled = false → d.vip_info = {})
    (hv_ne : ∀ t ∈ d.vip_info.tiers, pyStrip t.name ≠ "")
    (hv_pw : d.vip_info.tiers.Pairwise tierDissim)
    (hi_ne : ∀ s ∈ d.vip_info.included, itemKey s ≠ "")
    (hi_nd : (d.vip_info.included.map itemKey).Nodup) :
    merge_results pick [d] =
      { d with pricing_tiers := d.pricing_tiers.reverse,
               vip_info := { enabled := d.vip_info.enabled,
                             tiers := d.vip_info.tiers.reverse,
                             included := d.vip_info.included } } := by
  unfold merge_results
  rw [merge_description_single pick d hdesc, merge_venue_single d hven,
    merge_lineup_single d hart_ne hart_nd, merge_pricing_single d hp_ne hp_pw,
    merge_vip_single d hvip_dis hv_ne hv_pw hi_ne hi_nd]

/-- A well-formed single source for the C7 witness. -/
def c7_good : ExtractedEventData :=
  { description := some "A night of live music across three stages.",
    venue := some "Town Hall",
    lineup := [⟨"DJ Alpha", 1⟩, ⟨"MC Beta", 2⟩],
    pricing_tiers := [⟨"VIP", "$150"⟩, ⟨"General Admission", "$60"⟩],
    vip_info := ⟨true, [⟨"VIP Gold", "$200"⟩], ["Fast entry", "Lounge access"]⟩ }

set_option maxRecDepth 8000 in
/-- Witness for C7's amended claim at a concrete well-formed source. -/
theorem c7_single_source_merge_witness :
    merge_results (fun _ => none) [c7_good] =
      { c7_good with pricing_tiers := c7_good.pricing_tiers.reverse,
                     vip_info := { enabled := c7_good.vip_info.enabled,
                                   tiers := c7_good.vip_info.tiers.reverse,
                                   included := c7_good.vip_info.included } } :=
  c7_single_source_merge (fun _ => none) c7_good (by decide) (by decide) (by decide)
    (by decide) (by decide) (by decide) (by decide) (by decide) (by decide)
    (by decide) (by decide)

end Punter
